import Mathlib

/-!
Verification of `uco/model/metric.py` and `uco/runner.py` from the
understanding-cloud-organization repository, via a shallow embedding.

Tensors are embedded as (nested) lists of rationals; IEEE float division
(which the confusion helper exploits for its inf/NaN sentinels) is embedded
as an explicit result type distinguishing finite values, infinities and NaN.
Fallible operations (tensor indexing, division by an integer that may be
zero) return `Option`.
-/

namespace UCO

/-- Result of an IEEE-style elementwise division: a finite value, a signed
infinity, or NaN.  Division by zero yields NaN for 0/0, `+inf` for x/0 with
x > 0, `-inf` for x < 0; otherwise the exact quotient. -/
inductive DivResult where
  | fin (q : ℚ)
  | posInf
  | negInf
  | nan
deriving DecidableEq

/-- IEEE-style division on rationals (the embedding of `prediction / truth`
elementwise in torch). -/
def fdiv (x y : ℚ) : DivResult :=
  if y = 0 then
    if x = 0 then .nan
    else if 0 < x then .posInf
    else .negInf
  else .fin (x / y)

/-- Embedding of `_confusion` (metric.py lines 114-139): elementwise division
of prediction by truth, then count quotients equal to 1 (TP), `+inf` (FP),
NaN (TN) and 0 (FN).  Tensors are flattened to lists; torch comparisons with
NaN are false, which the `DivResult` equality reproduces. -/
def _confusion (prediction truth : List ℚ) : ℕ × ℕ × ℕ × ℕ :=
  let confusion_vector := List.zipWith fdiv prediction truth
  ((confusion_vector.filter (fun r => r = .fin 1)).length,
   (confusion_vector.filter (fun r => r = .posInf)).length,
   (confusion_vector.filter (fun r => r = .nan)).length,
   (confusion_vector.filter (fun r => r = .fin 0)).length)

/-- `(x > threshold).float()` elementwise: the 0/1 indicator list. -/
def binarize (threshold : ℚ) (v : List ℚ) : List ℚ :=
  v.map (fun x => if threshold < x then (1 : ℚ) else 0)

/-- The epsilon used by `dice_single_channel` (1e-9). -/
def diceEps : ℚ := 1 / 1000000000

/-- Embedding of `dice_single_channel` (metric.py lines 38-42): binarize the
probability channel at `threshold` and the truth channel at 0.5, then compute
`(2*(p*t).sum() + eps) / (p.sum() + t.sum() + eps)`.  The 2-d channel is
flattened (`view(-1)`). -/
def dice_single_channel (probability truth : List (List ℚ)) (threshold : ℚ) : ℚ :=
  let p := binarize threshold probability.flatten
  let t := binarize (1 / 2) truth.flatten
  (2 * (List.zipWith (· * ·) p t).sum + diceEps) / (p.sum + t.sum + diceEps)

/-- A 4-d tensor `[B, C, H, W]` as nested lists. -/
abbrev Tensor4 := List (List (List (List ℚ)))

/-- `x[b, c]`: the `[H, W]` channel slice; `none` when an index is out of
range (torch raises). -/
def sliceChannel (x : Tensor4) (b c : ℕ) : Option (List (List ℚ)) := do
  let img ← x[b]?
  img[c]?

/-- Sum of `dice_single_channel` over the given batch indices, embedding the
loop body of `dice_c`; `none` if any index is out of range. -/
def diceBatchTotal (c : ℕ) (output targets : Tensor4) (threshold : ℚ) :
    List ℕ → Option ℚ
  | [] => some 0
  | b :: bs => do
    let p ← sliceChannel output b c
    let t ← sliceChannel targets b c
    let rest ← diceBatchTotal c output targets threshold bs
    pure (dice_single_channel p t threshold + rest)

/-- Embedding of `dice_c` (metric.py lines 30-35): `B` is the batch size of
`targets`; sum `dice_single_channel` over the batch and divide by `B`.
Python raises `ZeroDivisionError` when `B = 0` (there is no guard), embedded
as `none`. -/
def dice_c (c : ℕ) (output targets : Tensor4) (threshold : ℚ) : Option ℚ := do
  let B := targets.length
  let total ← diceBatchTotal c output targets threshold (List.range B)
  if B = 0 then none else pure (total / B)

/-- `dice_0` (metric.py line 14). -/
def dice_0 (output targets : Tensor4) (threshold : ℚ) : Option ℚ :=
  dice_c 0 output targets threshold

/-- `dice_1` (metric.py line 18). -/
def dice_1 (output targets : Tensor4) (threshold : ℚ) : Option ℚ :=
  dice_c 1 output targets threshold

/-- `dice_2` (metric.py line 22). -/
def dice_2 (output targets : Tensor4) (threshold : ℚ) : Option ℚ :=
  dice_c 2 output targets threshold

/-- `dice_3` (metric.py line 26). -/
def dice_3 (output targets : Tensor4) (threshold : ℚ) : Option ℚ :=
  dice_c 3 output targets threshold

/-- Embedding of `dice_mean` (metric.py lines 6-11). -/
def dice_mean (output targets : Tensor4) (threshold : ℚ) : Option ℚ := do
  let d0 ← dice_0 output targets threshold
  let d1 ← dice_1 output targets threshold
  let d2 ← dice_2 output targets threshold
  let d3 ← dice_3 output targets threshold
  pure ((d0 + d1 + d2 + d3) / 4)

/-- `output[:, class_]` flattened to a single list; `none` when `class_` is
out of range for some batch item. -/
def selectClass (x : Tensor4) (class_ : ℕ) : Option (List ℚ) := do
  let chans ← x.mapM (fun img => img[class_]?)
  pure (chans.map List.flatten).flatten

/-- Embedding of `precision` (metric.py lines 82-87): binarize the selected
class channel of `output` at `threshold`, feed it with the raw target channel
to `_confusion`, return 1 when `tp = 0` and `fp = 0`, else `tp/(tp+fp)`. -/
def precision (output targets : Tensor4) (class_ : ℕ) (threshold : ℚ) :
    Option ℚ := do
  let oc ← selectClass output class_
  let tc ← selectClass targets class_
  let preds := binarize threshold oc
  let (tp, fp, _tn, _fn) := _confusion preds tc
  if tp = 0 ∧ fp = 0 then pure 1 else pure ((tp : ℚ) / ((tp : ℚ) + (fp : ℚ)))

/-- Embedding of `recall` (metric.py lines 106-111): as `precision` but with
`fn` in place of `fp`. -/
def «recall» (output targets : Tensor4) (class_ : ℕ) (threshold : ℚ) :
    Option ℚ := do
  let oc ← selectClass output class_
  let tc ← selectClass targets class_
  let preds := binarize threshold oc
  let (tp, _fp, _tn, fn) := _confusion preds tc
  if tp = 0 ∧ fn = 0 then pure 1 else pure ((tp : ℚ) / ((tp : ℚ) + (fn : ℚ)))

/-! ### Counting lemmas for the confusion helper -/

/-- Classification of `fdiv` on `{0,1}`-valued arguments: the four quotient
sentinels pick out exactly the four (prediction, truth) bit patterns. -/
lemma fdiv_cases (a b : ℚ) (ha : a = 0 ∨ a = 1) (hb : b = 0 ∨ b = 1) :
    (fdiv a b = .fin 1 ↔ a = 1 ∧ b = 1) ∧
    (fdiv a b = .posInf ↔ a = 1 ∧ b = 0) ∧
    (fdiv a b = .nan ↔ a = 0 ∧ b = 0) ∧
    (fdiv a b = .fin 0 ↔ a = 0 ∧ b = 1) := by
  rcases ha with rfl | rfl <;> rcases hb with rfl | rfl <;>
    refine ⟨?_, ?_, ?_, ?_⟩ <;> norm_num [fdiv] <;> decide

lemma countP_zipWith_fdiv (P : DivResult → Bool) :
    ∀ p t : List ℚ,
      (List.zipWith fdiv p t).countP P
        = (p.zip t).countP (fun ab => P (fdiv ab.1 ab.2)) := by
  intro p
  induction p with
  | nil => intro t; rfl
  | cons a p ih =>
    intro t
    cases t with
    | nil => rfl
    | cons b t => simp [List.countP_cons, ih]

lemma countP_partition {α : Type} (p1 p2 p3 p4 : α → Bool) (l : List α)
    (h : ∀ a ∈ l,
      (if p1 a then 1 else 0) + (if p2 a then 1 else 0)
        + (if p3 a then 1 else 0) + (if p4 a then 1 else 0) = 1) :
    l.countP p1 + l.countP p2 + l.countP p3 + l.countP p4 = l.length := by
  induction l with
  | nil => rfl
  | cons a l ih =>
    have ha := h a (by simp)
    have hrest := ih (fun x hx => h x (by simp [hx]))
    simp only [List.countP_cons, List.length_cons]
    split_ifs at ha ⊢ <;> omega

/-- C1: for same-length `{0,1}`-valued prediction and target vectors,
`_confusion` returns exactly the counts of the (1,1), (1,0), (0,0), (0,1)
positions — TP, FP, TN, FN respectively — and the four counts sum to the
total element count. -/
theorem confusion_counts_correct (p t : List ℚ) (hlen : p.length = t.length)
    (hp : ∀ x ∈ p, x = 0 ∨ x = 1) (ht : ∀ x ∈ t, x = 0 ∨ x = 1) :
    _confusion p t =
      ((p.zip t).countP (fun ab => decide (ab.1 = 1 ∧ ab.2 = 1)),
       (p.zip t).countP (fun ab => decide (ab.1 = 1 ∧ ab.2 = 0)),
       (p.zip t).countP (fun ab => decide (ab.1 = 0 ∧ ab.2 = 0)),
       (p.zip t).countP (fun ab => decide (ab.1 = 0 ∧ ab.2 = 1))) ∧
    (_confusion p t).1 + (_confusion p t).2.1 + (_confusion p t).2.2.1
      + (_confusion p t).2.2.2 = p.length := by
  have hmem : ∀ ab ∈ p.zip t, (ab.1 = 0 ∨ ab.1 = 1) ∧ (ab.2 = 0 ∨ ab.2 = 1) := by
    intro ab hab
    have h2 := List.of_mem_zip hab
    exact ⟨hp _ h2.1, ht _ h2.2⟩
  have key : _confusion p t =
      ((p.zip t).countP (fun ab => decide (ab.1 = 1 ∧ ab.2 = 1)),
       (p.zip t).countP (fun ab => decide (ab.1 = 1 ∧ ab.2 = 0)),
       (p.zip t).countP (fun ab => decide (ab.1 = 0 ∧ ab.2 = 0)),
       (p.zip t).countP (fun ab => decide (ab.1 = 0 ∧ ab.2 = 1))) := by
    show (((List.zipWith fdiv p t).filter _).length, ((List.zipWith fdiv p t).filter _).length,
          ((List.zipWith fdiv p t).filter _).length, ((List.zipWith fdiv p t).filter _).length) = _
    rw [← List.countP_eq_length_filter, ← List.countP_eq_length_filter,
      ← List.countP_eq_length_filter, ← List.countP_eq_length_filter,
      countP_zipWith_fdiv, countP_zipWith_fdiv, countP_zipWith_fdiv, countP_zipWith_fdiv]
    refine Prod.ext ?_ (Prod.ext ?_ (Prod.ext ?_ ?_)) <;>
      · refine List.countP_congr ?_
        intro ab hab
        obtain ⟨h1, h2⟩ := hmem ab hab
        have hc := fdiv_cases ab.1 ab.2 h1 h2
        simp only [decide_eq_true_eq]
        first
        | exact hc.1
        | exact hc.2.1
        | exact hc.2.2.1
        | exact hc.2.2.2
  refine ⟨key, ?_⟩
  rw [key]
  have hsum := countP_partition
    (fun ab : ℚ × ℚ => decide (ab.1 = 1 ∧ ab.2 = 1))
    (fun ab : ℚ × ℚ => decide (ab.1 = 1 ∧ ab.2 = 0))
    (fun ab : ℚ × ℚ => decide (ab.1 = 0 ∧ ab.2 = 0))
    (fun ab : ℚ × ℚ => decide (ab.1 = 0 ∧ ab.2 = 1))
    (p.zip t) ?_
  · simpa [List.length_zip, hlen] using hsum
  · intro ab hab
    obtain ⟨h1, h2⟩ := hmem ab hab
    rcases h1 with h1 | h1 <;> rcases h2 with h2 | h2 <;> simp [h1, h2]

/-- Witness for C1 at `p = [1,1,0,0]`, `t = [1,0,0,1]`. -/
theorem confusion_counts_correct_witness :
    _confusion [1, 1, 0, 0] [1, 0, 0, 1] = (1, 1, 1, 1) := by
  have h := confusion_counts_correct [1, 1, 0, 0] [1, 0, 0, 1] rfl
    (by decide) (by decide)
  rw [h.1]
  decide

/-! ### Dice single channel -/

lemma sum_indicator (P : ℚ → Prop) [DecidablePred P] (v : List ℚ) :
    (v.map (fun x => if P x then (1 : ℚ) else 0)).sum
      = (v.countP (fun x => decide (P x)) : ℚ) := by
  induction v with
  | nil => rfl
  | cons a v ih =>
    simp only [List.map_cons, List.sum_cons, List.countP_cons, ih]
    by_cases h : P a <;> simp [h] <;> push_cast <;> ring

lemma sum_indicator_mul (P Q : ℚ → Prop) [DecidablePred P] [DecidablePred Q] :
    ∀ p t : List ℚ,
      (List.zipWith (· * ·) (p.map (fun x => if P x then (1 : ℚ) else 0))
          (t.map (fun x => if Q x then (1 : ℚ) else 0))).sum
        = ((p.zip t).countP (fun ab => decide (P ab.1 ∧ Q ab.2)) : ℚ) := by
  intro p
  induction p with
  | nil => intro t; rfl
  | cons a p ih =>
    intro t
    cases t with
    | nil => rfl
    | cons b t =>
      simp only [List.map_cons, List.zipWith_cons_cons, List.sum_cons,
        List.zip_cons_cons, List.countP_cons, ih]
      by_cases hP : P a <;> by_cases hQ : Q b <;>
        simp [hP, hQ] <;> push_cast <;> ring

/-- C2: `dice_single_channel` computes `(2*|P∩T| + eps) / (|P| + |T| + eps)`
with `eps = 1e-9`, where `P` binarizes the probability channel at `threshold`
and `T` binarizes the truth channel at 0.5; when both binarized masks are
empty the result is exactly 1. -/
theorem dice_single_channel_correct (probability truth : List (List ℚ))
    (threshold : ℚ)
    (hlen : probability.flatten.length = truth.flatten.length) :
    (dice_single_channel probability truth threshold =
      (2 * ((probability.flatten.zip truth.flatten).countP
              (fun ab => decide (threshold < ab.1 ∧ 1 / 2 < ab.2)) : ℚ)
          + (1e-9 : ℚ)) /
        ((probability.flatten.countP (fun x => decide (threshold < x)) : ℚ)
          + (truth.flatten.countP (fun x => decide ((1 : ℚ) / 2 < x)) : ℚ)
          + (1e-9 : ℚ))) ∧
    ((∀ x ∈ probability.flatten, ¬ threshold < x) →
      (∀ x ∈ truth.flatten, ¬ (1 : ℚ) / 2 < x) →
      dice_single_channel probability truth threshold = 1) := by
  have heps : diceEps = (1e-9 : ℚ) := by norm_num [diceEps]
  have hmain : dice_single_channel probability truth threshold =
      (2 * ((probability.flatten.zip truth.flatten).countP
              (fun ab => decide (threshold < ab.1 ∧ 1 / 2 < ab.2)) : ℚ)
          + (1e-9 : ℚ)) /
        ((probability.flatten.countP (fun x => decide (threshold < x)) : ℚ)
          + (truth.flatten.countP (fun x => decide ((1 : ℚ) / 2 < x)) : ℚ)
          + (1e-9 : ℚ)) := by
    unfold dice_single_channel binarize
    dsimp only
    rw [sum_indicator_mul (fun x => threshold < x) (fun x => (1 : ℚ) / 2 < x),
      sum_indicator (fun x => threshold < x),
      sum_indicator (fun x => (1 : ℚ) / 2 < x), heps]
  refine ⟨hmain, fun hP hT => ?_⟩
  have h1 : probability.flatten.countP (fun x => decide (threshold < x)) = 0 :=
    List.countP_eq_zero.2 (by intro x hx; simpa using hP x hx)
  have h2 : truth.flatten.countP (fun x => decide ((1 : ℚ) / 2 < x)) = 0 :=
    List.countP_eq_zero.2 (by intro x hx; simpa using hT x hx)
  have h3 : (probability.flatten.zip truth.flatten).countP
      (fun ab => decide (threshold < ab.1 ∧ 1 / 2 < ab.2)) = 0 := by
    refine List.countP_eq_zero.2 ?_
    intro ab hab
    have := (List.of_mem_zip hab).1
    simp only [decide_eq_true_eq, not_and]
    exact fun h => absurd h (hP _ this)
  rw [hmain, h1, h2, h3]
  norm_num

/-- Witness for C2 at a concrete channel where prediction and target
binarize to empty masks. -/
theorem dice_single_channel_correct_witness :
    dice_single_channel [[(0.3 : ℚ), 0.1]] [[(0.2 : ℚ), 0]] (1 / 2) = 1 := by
  have h := dice_single_channel_correct [[(0.3 : ℚ), 0.1]] [[(0.2 : ℚ), 0]]
    (1 / 2) (by decide)
  exact h.2 (by intro x hx; fin_cases hx <;> norm_num)
    (by intro x hx; fin_cases hx <;> norm_num)

/-! ### Precision and recall -/

/-- C3: whenever the class channel selections succeed, `precision` returns
`tp/(tp+fp)` and exactly 1 when `tp = fp = 0`, and `recall` returns
`tp/(tp+fn)` and exactly 1 when `tp = fn = 0`; in the division branch the
denominator is provably nonzero, so no division by zero is ever performed. -/
theorem precision_recall_correct (output targets : Tensor4) (class_ : ℕ)
    (threshold : ℚ) (oc tc : List ℚ) (tp fp tn fn : ℕ)
    (ho : selectClass output class_ = some oc)
    (ht : selectClass targets class_ = some tc)
    (hcf : _confusion (binarize threshold oc) tc = (tp, fp, tn, fn)) :
    (precision output targets class_ threshold
        = some (if tp = 0 ∧ fp = 0 then 1 else (tp : ℚ) / ((tp : ℚ) + (fp : ℚ)))) ∧
    (tp = 0 → fp = 0 → precision output targets class_ threshold = some 1) ∧
    (¬ (tp = 0 ∧ fp = 0) → (tp : ℚ) + (fp : ℚ) ≠ 0 ∧
        precision output targets class_ threshold
          = some ((tp : ℚ) / ((tp : ℚ) + (fp : ℚ)))) ∧
    («recall» output targets class_ threshold
        = some (if tp = 0 ∧ fn = 0 then 1 else (tp : ℚ) / ((tp : ℚ) + (fn : ℚ)))) ∧
    (tp = 0 → fn = 0 → «recall» output targets class_ threshold = some 1) ∧
    (¬ (tp = 0 ∧ fn = 0) → (tp : ℚ) + (fn : ℚ) ≠ 0 ∧
        «recall» output targets class_ threshold
          = some ((tp : ℚ) / ((tp : ℚ) + (fn : ℚ)))) := by
  have hprec : precision output targets class_ threshold
      = if tp = 0 ∧ fp = 0 then some 1
        else some ((tp : ℚ) / ((tp : ℚ) + (fp : ℚ))) := by
    unfold precision
    rw [ho, ht]
    simp [hcf]
  have hrec : «recall» output targets class_ threshold
      = if tp = 0 ∧ fn = 0 then some 1
        else some ((tp : ℚ) / ((tp : ℚ) + (fn : ℚ))) := by
    unfold «recall»
    rw [ho, ht]
    simp [hcf]
  refine ⟨?_, ?_, ?_, ?_, ?_, ?_⟩
  · rw [hprec]; split <;> rfl
  · intro h1 h2; rw [hprec, if_pos ⟨h1, h2⟩]
  · intro h
    have hne : tp + fp ≠ 0 := by omega
    refine ⟨?_, by rw [hprec, if_neg h]⟩
    have : ((tp + fp : ℕ) : ℚ) ≠ 0 := Nat.cast_ne_zero.2 hne
    push_cast at this
    exact this
  · rw [hrec]; split <;> rfl
  · intro h1 h2; rw [hrec, if_pos ⟨h1, h2⟩]
  · intro h
    have hne : tp + fn ≠ 0 := by omega
    refine ⟨?_, by rw [hrec, if_neg h]⟩
    have : ((tp + fn : ℕ) : ℚ) ≠ 0 := Nat.cast_ne_zero.2 hne
    push_cast at this
    exact this

/-- Witness for C3 at a concrete `[1,1,1,2]` output/target pair with one
true positive, one false positive and no false negative. -/
theorem precision_recall_correct_witness :
    precision [[[[(0.9 : ℚ), 0.9]]]] [[[[(1 : ℚ), 0]]]] 0 (1 / 2)
        = some (1 / 2) ∧
    «recall» [[[[(0.9 : ℚ), 0.9]]]] [[[[(1 : ℚ), 0]]]] 0 (1 / 2) = some 1 := by
  have h := precision_recall_correct [[[[(0.9 : ℚ), 0.9]]]] [[[[(1 : ℚ), 0]]]]
    0 (1 / 2) [(0.9 : ℚ), 0.9] [(1 : ℚ), 0] 1 1 0 0 rfl rfl
    (by norm_num [_confusion, binarize, fdiv, List.filter]; decide)
  constructor
  · rw [(h.2.2.1 (by simp)).2]; norm_num
  · rw [h.2.2.2.1]; norm_num

/-! ### Per-class and threshold-bound precision/recall variants -/

/-- `precision_0` (metric.py). -/
def precision_0 (output targets : Tensor4) (threshold : ℚ) : Option ℚ :=
  precision output targets 0 threshold

/-- `precision_1` (metric.py). -/
def precision_1 (output targets : Tensor4) (threshold : ℚ) : Option ℚ :=
  precision output targets 1 threshold

/-- `precision_2` (metric.py). -/
def precision_2 (output targets : Tensor4) (threshold : ℚ) : Option ℚ :=
  precision output targets 2 threshold

/-- `precision_3` (metric.py). -/
def precision_3 (output targets : Tensor4) (threshold : ℚ) : Option ℚ :=
  precision output targets 3 threshold

/-- `recall_0` (metric.py). -/
def recall_0 (output targets : Tensor4) (threshold : ℚ) : Option ℚ :=
  «recall» output targets 0 threshold

/-- `recall_1` (metric.py). -/
def recall_1 (output targets : Tensor4) (threshold : ℚ) : Option ℚ :=
  «recall» output targets 1 threshold

/-- `recall_2` (metric.py). -/
def recall_2 (output targets : Tensor4) (threshold : ℚ) : Option ℚ :=
  «recall» output targets 2 threshold

/-- `recall_3` (metric.py). -/
def recall_3 (output targets : Tensor4) (threshold : ℚ) : Option ℚ :=
  «recall» output targets 3 threshold

/-- `precision_0_20` = `partial(precision_0, threshold=0.20)` (metric.py). -/
def precision_0_20 (output targets : Tensor4) : Option ℚ :=
  precision_0 output targets (0.20 : ℚ)

/-- `precision_0_30` = `partial(precision_0, threshold=0.30)` (metric.py). -/
def precision_0_30 (output targets : Tensor4) : Option ℚ :=
  precision_0 output targets (0.30 : ℚ)

/-- `precision_0_40` = `partial(precision_0, threshold=0.40)` (metric.py). -/
def precision_0_40 (output targets : Tensor4) : Option ℚ :=
  precision_0 output targets (0.40 : ℚ)

/-- `precision_0_50` = `partial(precision_0, threshold=0.50)` (metric.py). -/
def precision_0_50 (output targets : Tensor4) : Option ℚ :=
  precision_0 output targets (0.50 : ℚ)

/-- `precision_0_60` = `partial(precision_0, threshold=0.60)` (metric.py). -/
def precision_0_60 (output targets : Tensor4) : Option ℚ :=
  precision_0 output targets (0.60 : ℚ)

/-- `precision_0_70` = `partial(precision_0, threshold=0.70)` (metric.py). -/
def precision_0_70 (output targets : Tensor4) : Option ℚ :=
  precision_0 output targets (0.70 : ℚ)

/-- `precision_0_80` = `partial(precision_0, threshold=0.80)` (metric.py). -/
def precision_0_80 (output targets : Tensor4) : Option ℚ :=
  precision_0 output targets (0.80 : ℚ)

/-- `precision_1_20` = `partial(precision_1, threshold=0.20)` (metric.py). -/
def precision_1_20 (output targets : Tensor4) : Option ℚ :=
  precision_1 output targets (0.20 : ℚ)

/-- `precision_1_30` = `partial(precision_1, threshold=0.30)` (metric.py). -/
def precision_1_30 (output targets : Tensor4) : Option ℚ :=
  precision_1 output targets (0.30 : ℚ)

/-- `precision_1_40` = `partial(precision_1, threshold=0.40)` (metric.py). -/
def precision_1_40 (output targets : Tensor4) : Option ℚ :=
  precision_1 output targets (0.40 : ℚ)

/-- `precision_1_50` = `partial(precision_1, threshold=0.50)` (metric.py). -/
def precision_1_50 (output targets : Tensor4) : Option ℚ :=
  precision_1 output targets (0.50 : ℚ)

/-- `precision_1_60` = `partial(precision_1, threshold=0.60)` (metric.py). -/
def precision_1_60 (output targets : Tensor4) : Option ℚ :=
  precision_1 output targets (0.60 : ℚ)

/-- `precision_1_70` = `partial(precision_1, threshold=0.70)` (metric.py). -/
def precision_1_70 (output targets : Tensor4) : Option ℚ :=
  precision_1 output targets (0.70 : ℚ)

/-- `precision_1_80` = `partial(precision_1, threshold=0.80)` (metric.py). -/
def precision_1_80 (output targets : Tensor4) : Option ℚ :=
  precision_1 output targets (0.80 : ℚ)

/-- `precision_2_20` = `partial(precision_2, threshold=0.20)` (metric.py). -/
def precision_2_20 (output targets : Tensor4) : Option ℚ :=
  precision_2 output targets (0.20 : ℚ)

/-- `precision_2_30` = `partial(precision_2, threshold=0.30)` (metric.py). -/
def precision_2_30 (output targets : Tensor4) : Option ℚ :=
  precision_2 output targets (0.30 : ℚ)

/-- `precision_2_40` = `partial(precision_2, threshold=0.40)` (metric.py). -/
def precision_2_40 (output targets : Tensor4) : Option ℚ :=
  precision_2 output targets (0.40 : ℚ)

/-- `precision_2_50` = `partial(precision_2, threshold=0.50)` (metric.py). -/
def precision_2_50 (output targets : Tensor4) : Option ℚ :=
  precision_2 output targets (0.50 : ℚ)

/-- `precision_2_60` = `partial(precision_2, threshold=0.60)` (metric.py). -/
def precision_2_60 (output targets : Tensor4) : Option ℚ :=
  precision_2 output targets (0.60 : ℚ)

/-- `precision_2_70` = `partial(precision_2, threshold=0.70)` (metric.py). -/
def precision_2_70 (output targets : Tensor4) : Option ℚ :=
  precision_2 output targets (0.70 : ℚ)

/-- `precision_2_80` = `partial(precision_2, threshold=0.80)` (metric.py). -/
def precision_2_80 (output targets : Tensor4) : Option ℚ :=
  precision_2 output targets (0.80 : ℚ)

/-- `precision_3_20` = `partial(precision_3, threshold=0.20)` (metric.py). -/
def precision_3_20 (output targets : Tensor4) : Option ℚ :=
  precision_3 output targets (0.20 : ℚ)

/-- `precision_3_30` = `partial(precision_3, threshold=0.30)` (metric.py). -/
def precision_3_30 (output targets : Tensor4) : Option ℚ :=
  precision_3 output targets (0.30 : ℚ)

/-- `precision_3_40` = `partial(precision_3, threshold=0.40)` (metric.py). -/
def precision_3_40 (output targets : Tensor4) : Option ℚ :=
  precision_3 output targets (0.40 : ℚ)

/-- `precision_3_50` = `partial(precision_3, threshold=0.50)` (metric.py). -/
def precision_3_50 (output targets : Tensor4) : Option ℚ :=
  precision_3 output targets (0.50 : ℚ)

/-- `precision_3_60` = `partial(precision_3, threshold=0.60)` (metric.py). -/
def precision_3_60 (output targets : Tensor4) : Option ℚ :=
  precision_3 output targets (0.60 : ℚ)

/-- `precision_3_70` = `partial(precision_3, threshold=0.70)` (metric.py). -/
def precision_3_70 (output targets : Tensor4) : Option ℚ :=
  precision_3 output targets (0.70 : ℚ)

/-- `precision_3_80` = `partial(precision_3, threshold=0.80)` (metric.py). -/
def precision_3_80 (output targets : Tensor4) : Option ℚ :=
  precision_3 output targets (0.80 : ℚ)

/-- `recall_0_20` = `partial(recall_0, threshold=0.20)` (metric.py). -/
def recall_0_20 (output targets : Tensor4) : Option ℚ :=
  recall_0 output targets (0.20 : ℚ)

/-- `recall_0_30` = `partial(recall_0, threshold=0.30)` (metric.py). -/
def recall_0_30 (output targets : Tensor4) : Option ℚ :=
  recall_0 output targets (0.30 : ℚ)

/-- `recall_0_40` = `partial(recall_0, threshold=0.40)` (metric.py). -/
def recall_0_40 (output targets : Tensor4) : Option ℚ :=
  recall_0 output targets (0.40 : ℚ)

/-- `recall_0_50` = `partial(recall_0, threshold=0.50)` (metric.py). -/
def recall_0_50 (output targets : Tensor4) : Option ℚ :=
  recall_0 output targets (0.50 : ℚ)

/-- `recall_0_60` = `partial(recall_0, threshold=0.60)` (metric.py). -/
def recall_0_60 (output targets : Tensor4) : Option ℚ :=
  recall_0 output targets (0.60 : ℚ)

/-- `recall_0_70` = `partial(recall_0, threshold=0.70)` (metric.py). -/
def recall_0_70 (output targets : Tensor4) : Option ℚ :=
  recall_0 output targets (0.70 : ℚ)

/-- `recall_0_80` = `partial(recall_0, threshold=0.80)` (metric.py). -/
def recall_0_80 (output targets : Tensor4) : Option ℚ :=
  recall_0 output targets (0.80 : ℚ)

/-- `recall_1_20` = `partial(recall_1, threshold=0.20)` (metric.py). -/
def recall_1_20 (output targets : Tensor4) : Option ℚ :=
  recall_1 output targets (0.20 : ℚ)

/-- `recall_1_30` = `partial(recall_1, threshold=0.30)` (metric.py). -/
def recall_1_30 (output targets : Tensor4) : Option ℚ :=
  recall_1 output targets (0.30 : ℚ)

/-- `recall_1_40` = `partial(recall_1, threshold=0.40)` (metric.py). -/
def recall_1_40 (output targets : Tensor4) : Option ℚ :=
  recall_1 output targets (0.40 : ℚ)

/-- `recall_1_50` = `partial(recall_1, threshold=0.50)` (metric.py). -/
def recall_1_50 (output targets : Tensor4) : Option ℚ :=
  recall_1 output targets (0.50 : ℚ)

/-- `recall_1_60` = `partial(recall_1, threshold=0.60)` (metric.py). -/
def recall_1_60 (output targets : Tensor4) : Option ℚ :=
  recall_1 output targets (0.60 : ℚ)

/-- `recall_1_70` = `partial(recall_1, threshold=0.70)` (metric.py). -/
def recall_1_70 (output targets : Tensor4) : Option ℚ :=
  recall_1 output targets (0.70 : ℚ)

/-- `recall_1_80` = `partial(recall_1, threshold=0.80)` (metric.py). -/
def recall_1_80 (output targets : Tensor4) : Option ℚ :=
  recall_1 output targets (0.80 : ℚ)

/-- `recall_2_20` = `partial(recall_2, threshold=0.20)` (metric.py). -/
def recall_2_20 (output targets : Tensor4) : Option ℚ :=
  recall_2 output targets (0.20 : ℚ)

/-- `recall_2_30` = `partial(recall_2, threshold=0.30)` (metric.py). -/
def recall_2_30 (output targets : Tensor4) : Option ℚ :=
  recall_2 output targets (0.30 : ℚ)

/-- `recall_2_40` = `partial(recall_2, threshold=0.40)` (metric.py). -/
def recall_2_40 (output targets : Tensor4) : Option ℚ :=
  recall_2 output targets (0.40 : ℚ)

/-- `recall_2_50` = `partial(recall_2, threshold=0.50)` (metric.py). -/
def recall_2_50 (output targets : Tensor4) : Option ℚ :=
  recall_2 output targets (0.50 : ℚ)

/-- `recall_2_60` = `partial(recall_2, threshold=0.60)` (metric.py). -/
def recall_2_60 (output targets : Tensor4) : Option ℚ :=
  recall_2 output targets (0.60 : ℚ)

/-- `recall_2_70` = `partial(recall_2, threshold=0.70)` (metric.py). -/
def recall_2_70 (output targets : Tensor4) : Option ℚ :=
  recall_2 output targets (0.70 : ℚ)

/-- `recall_2_80` = `partial(recall_2, threshold=0.80)` (metric.py). -/
def recall_2_80 (output targets : Tensor4) : Option ℚ :=
  recall_2 output targets (0.80 : ℚ)

/-- `recall_3_20` = `partial(recall_3, threshold=0.20)` (metric.py). -/
def recall_3_20 (output targets : Tensor4) : Option ℚ :=
  recall_3 output targets (0.20 : ℚ)

/-- `recall_3_30` = `partial(recall_3, threshold=0.30)` (metric.py). -/
def recall_3_30 (output targets : Tensor4) : Option ℚ :=
  recall_3 output targets (0.30 : ℚ)

/-- `recall_3_40` = `partial(recall_3, threshold=0.40)` (metric.py). -/
def recall_3_40 (output targets : Tensor4) : Option ℚ :=
  recall_3 output targets (0.40 : ℚ)

/-- `recall_3_50` = `partial(recall_3, threshold=0.50)` (metric.py). -/
def recall_3_50 (output targets : Tensor4) : Option ℚ :=
  recall_3 output targets (0.50 : ℚ)

/-- `recall_3_60` = `partial(recall_3, threshold=0.60)` (metric.py). -/
def recall_3_60 (output targets : Tensor4) : Option ℚ :=
  recall_3 output targets (0.60 : ℚ)

/-- `recall_3_70` = `partial(recall_3, threshold=0.70)` (metric.py). -/
def recall_3_70 (output targets : Tensor4) : Option ℚ :=
  recall_3 output targets (0.70 : ℚ)

/-- `recall_3_80` = `partial(recall_3, threshold=0.80)` (metric.py). -/
def recall_3_80 (output targets : Tensor4) : Option ℚ :=
  recall_3 output targets (0.80 : ℚ)

/-- C9: every threshold-bound variant is definitionally the general
precision/recall function applied at its class index and threshold. -/
theorem threshold_variants_correct (output targets : Tensor4) :
    precision_0_20 output targets = precision output targets 0 (0.20 : ℚ) ∧
    precision_0_30 output targets = precision output targets 0 (0.30 : ℚ) ∧
    precision_0_40 output targets = precision output targets 0 (0.40 : ℚ) ∧
    precision_0_50 output targets = precision output targets 0 (0.50 : ℚ) ∧
    precision_0_60 output targets = precision output targets 0 (0.60 : ℚ) ∧
    precision_0_70 output targets = precision output targets 0 (0.70 : ℚ) ∧
    precision_0_80 output targets = precision output targets 0 (0.80 : ℚ) ∧
    precision_1_20 output targets = precision output targets 1 (0.20 : ℚ) ∧
    precision_1_30 output targets = precision output targets 1 (0.30 : ℚ) ∧
    precision_1_40 output targets = precision output targets 1 (0.40 : ℚ) ∧
    precision_1_50 output targets = precision output targets 1 (0.50 : ℚ) ∧
    precision_1_60 output targets = precision output targets 1 (0.60 : ℚ) ∧
    precision_1_70 output targets = precision output targets 1 (0.70 : ℚ) ∧
    precision_1_80 output targets = precision output targets 1 (0.80 : ℚ) ∧
    precision_2_20 output targets = precision output targets 2 (0.20 : ℚ) ∧
    precision_2_30 output targets = precision output targets 2 (0.30 : ℚ) ∧
    precision_2_40 output targets = precision output targets 2 (0.40 : ℚ) ∧
    precision_2_50 output targets = precision output targets 2 (0.50 : ℚ) ∧
    precision_2_60 output targets = precision output targets 2 (0.60 : ℚ) ∧
    precision_2_70 output targets = precision output targets 2 (0.70 : ℚ) ∧
    precision_2_80 output targets = precision output targets 2 (0.80 : ℚ) ∧
    precision_3_20 output targets = precision output targets 3 (0.20 : ℚ) ∧
    precision_3_30 output targets = precision output targets 3 (0.30 : ℚ) ∧
    precision_3_40 output targets = precision output targets 3 (0.40 : ℚ) ∧
    precision_3_50 output targets = precision output targets 3 (0.50 : ℚ) ∧
    precision_3_60 output targets = precision output targets 3 (0.60 : ℚ) ∧
    precision_3_70 output targets = precision output targets 3 (0.70 : ℚ) ∧
    precision_3_80 output targets = precision output targets 3 (0.80 : ℚ) ∧
    recall_0_20 output targets = «recall» output targets 0 (0.20 : ℚ) ∧
    recall_0_30 output targets = «recall» output targets 0 (0.30 : ℚ) ∧
    recall_0_40 output targets = «recall» output targets 0 (0.40 : ℚ) ∧
    recall_0_50 output targets = «recall» output targets 0 (0.50 : ℚ) ∧
    recall_0_60 output targets = «recall» output targets 0 (0.60 : ℚ) ∧
    recall_0_70 output targets = «recall» output targets 0 (0.70 : ℚ) ∧
    recall_0_80 output targets = «recall» output targets 0 (0.80 : ℚ) ∧
    recall_1_20 output targets = «recall» output targets 1 (0.20 : ℚ) ∧
    recall_1_30 output targets = «recall» output targets 1 (0.30 : ℚ) ∧
    recall_1_40 output targets = «recall» output targets 1 (0.40 : ℚ) ∧
    recall_1_50 output targets = «recall» output targets 1 (0.50 : ℚ) ∧
    recall_1_60 output targets = «recall» output targets 1 (0.60 : ℚ) ∧
    recall_1_70 output targets = «recall» output targets 1 (0.70 : ℚ) ∧
    recall_1_80 output targets = «recall» output targets 1 (0.80 : ℚ) ∧
    recall_2_20 output targets = «recall» output targets 2 (0.20 : ℚ) ∧
    recall_2_30 output targets = «recall» output targets 2 (0.30 : ℚ) ∧
    recall_2_40 output targets = «recall» output targets 2 (0.40 : ℚ) ∧
    recall_2_50 output targets = «recall» output targets 2 (0.50 : ℚ) ∧
    recall_2_60 output targets = «recall» output targets 2 (0.60 : ℚ) ∧
    recall_2_70 output targets = «recall» output targets 2 (0.70 : ℚ) ∧
    recall_2_80 output targets = «recall» output targets 2 (0.80 : ℚ) ∧
    recall_3_20 output targets = «recall» output targets 3 (0.20 : ℚ) ∧
    recall_3_30 output targets = «recall» output targets 3 (0.30 : ℚ) ∧
    recall_3_40 output targets = «recall» output targets 3 (0.40 : ℚ) ∧
    recall_3_50 output targets = «recall» output targets 3 (0.50 : ℚ) ∧
    recall_3_60 output targets = «recall» output targets 3 (0.60 : ℚ) ∧
    recall_3_70 output targets = «recall» output targets 3 (0.70 : ℚ) ∧
    recall_3_80 output targets = «recall» output targets 3 (0.80 : ℚ) :=
  ⟨rfl, rfl, rfl, rfl, rfl, rfl, rfl, rfl, rfl, rfl, rfl, rfl, rfl, rfl, rfl, rfl, rfl, rfl, rfl, rfl, rfl, rfl, rfl, rfl, rfl, rfl, rfl, rfl, rfl, rfl, rfl, rfl, rfl, rfl, rfl, rfl, rfl, rfl, rfl, rfl, rfl, rfl, rfl, rfl, rfl, rfl, rfl, rfl, rfl, rfl, rfl, rfl, rfl, rfl, rfl, rfl⟩

/-! ### Dice requires a nonempty batch -/

lemma diceBatchTotal_isSome (c : ℕ) (output targets : Tensor4) (threshold : ℚ)
    (bs : List ℕ)
    (h : ∀ b ∈ bs, (sliceChannel output b c).isSome
        ∧ (sliceChannel targets b c).isSome) :
    (diceBatchTotal c output targets threshold bs).isSome := by
  induction bs with
  | nil => rfl
  | cons b bs ih =>
    have hb := h b (by simp)
    have hrest := ih (fun x hx => h x (by simp [hx]))
    obtain ⟨p, hp⟩ := Option.isSome_iff_exists.1 hb.1
    obtain ⟨t, ht⟩ := Option.isSome_iff_exists.1 hb.2
    obtain ⟨r, hr⟩ := Option.isSome_iff_exists.1 hrest
    simp [diceBatchTotal, hp, ht, hr]

/-- C10: the per-class Dice functions are undefined on an empty batch:
`dice_c` divides by `B = targets.length` with no guard, so `dice_c`,
`dice_0`..`dice_3` and `dice_mean` all fail on `B = 0`; conversely, for a
nonempty batch whose slices are all in range, `dice_c` is defined. -/
theorem dice_requires_nonempty_batch :
    (∀ c output threshold, dice_c c output ([] : Tensor4) threshold = none) ∧
    (∀ output threshold,
      dice_0 output ([] : Tensor4) threshold = none ∧
      dice_1 output ([] : Tensor4) threshold = none ∧
      dice_2 output ([] : Tensor4) threshold = none ∧
      dice_3 output ([] : Tensor4) threshold = none ∧
      dice_mean output ([] : Tensor4) threshold = none) ∧
    (∀ c output targets threshold, targets ≠ ([] : Tensor4) →
      (∀ b < targets.length, (sliceChannel output b c).isSome
          ∧ (sliceChannel targets b c).isSome) →
      (dice_c c output targets threshold).isSome) := by
  refine ⟨fun c output threshold => rfl,
    fun output threshold => ⟨rfl, rfl, rfl, rfl, rfl⟩, ?_⟩
  intro c output targets threshold hne h
  have htot := diceBatchTotal_isSome c output targets threshold
    (List.range targets.length) (by intro b hb; exact h b (List.mem_range.1 hb))
  obtain ⟨total, htotal⟩ := Option.isSome_iff_exists.1 htot
  have hB : targets.length ≠ 0 := fun h0 => hne (List.length_eq_zero.1 h0)
  simp [dice_c, htotal, hB]

/-- Witness for C10: the empty batch is undefined, a singleton batch is
defined. -/
theorem dice_requires_nonempty_batch_witness :
    dice_c 0 ([] : Tensor4) ([] : Tensor4) (1 / 2) = none ∧
    dice_mean ([] : Tensor4) ([] : Tensor4) (1 / 2) = none ∧
    (dice_c 0 [[[[(1 : ℚ)]]]] [[[[(1 : ℚ)]]]] (1 / 2)).isSome = true := by
  refine ⟨dice_requires_nonempty_batch.1 0 [] (1 / 2),
    (dice_requires_nonempty_batch.2.1 [] (1 / 2)).2.2.2.2,
    dice_requires_nonempty_batch.2.2 0 [[[[(1 : ℚ)]]]] [[[[(1 : ℚ)]]]] (1 / 2)
      (by simp) ?_⟩
  intro b hb
  have hb0 : b = 0 := by simpa using hb
  subst hb0
  exact ⟨rfl, rfl⟩

/-! ## Runner embedding (`uco/runner.py`) -/

/-- A model, abstracted to its `state_dict` (weights). -/
structure Model where
  weights : List ℚ
deriving DecidableEq

/-- An optimizer: its type name (`.__class__.__name__` as recorded in
checkpoint configs) and its loadable state. -/
structure Optim where
  otype : String
  state : List ℚ
deriving DecidableEq

/-- A compute device. -/
inductive Device where
  | cpu
  | cuda (i : ℕ)
deriving DecidableEq

/-- The result of placing a model: moved onto one device, or wrapped in
`nn.DataParallel` over several device ids. -/
inductive PlacedModel where
  | onDevice (m : Model) (d : Device)
  | dataParallel (m : Model) (ids : List ℕ)
deriving DecidableEq

/-- Embedding of `ManagerBase.setup_device` (runner.py lines 52-94), with
`torch.cuda.device_count()` passed explicitly as `device_count`.  A
`raise Exception` is `Except.error`. -/
def setup_device (device_count : ℕ) (model : Model)
    (target_devices : List ℕ) : Except String (PlacedModel × Device) :=
  let available_devices := List.range device_count
  if available_devices.isEmpty then
    .ok (.onDevice model .cpu, .cpu)
  else if target_devices.isEmpty then
    .ok (.onDevice model .cpu, .cpu)
  else
    let max_target_gpu := target_devices.foldl max 0
    let max_available_gpu := available_devices.foldl max 0
    if max_available_gpu < max_target_gpu then
      .error "Configuration requests an unavailable GPU"
    else
      let device := Device.cuda (target_devices.headD 0)
      if 1 < target_devices.length then
        .ok (.dataParallel model target_devices, device)
      else
        .ok (.onDevice model device, device)

lemma range_foldl_max (n : ℕ) : (List.range n).foldl max 0 = n - 1 := by
  induction n with
  | zero => rfl
  | succ n ih =>
    rw [List.range_succ, List.foldl_append, ih]
    simp [Nat.max_def]

/-- C6: `setup_device` returns CPU placement when no device is available or
none is requested, raises when the maximum requested index exceeds the
maximum available index, wraps in data-parallel for several valid devices,
and otherwise places the model on the single requested device. -/
theorem setup_device_correct (device_count : ℕ) (model : Model)
    (target_devices : List ℕ) :
    (device_count = 0 →
      setup_device device_count model target_devices
        = .ok (.onDevice model .cpu, .cpu)) ∧
    (target_devices = [] →
      setup_device device_count model target_devices
        = .ok (.onDevice model .cpu, .cpu)) ∧
    (device_count ≠ 0 → target_devices ≠ [] →
      device_count - 1 < target_devices.foldl max 0 →
      setup_device device_count model target_devices
        = .error "Configuration requests an unavailable GPU") ∧
    (device_count ≠ 0 → target_devices ≠ [] →
      target_devices.foldl max 0 ≤ device_count - 1 →
      1 < target_devices.length →
      setup_device device_count model target_devices
        = .ok (.dataParallel model target_devices,
            .cuda (target_devices.headD 0))) ∧
    (device_count ≠ 0 → target_devices ≠ [] →
      target_devices.foldl max 0 ≤ device_count - 1 →
      target_devices.length = 1 →
      setup_device device_count model target_devices
        = .ok (.onDevice model (.cuda (target_devices.headD 0)),
            .cuda (target_devices.headD 0))) := by
  refine ⟨?_, ?_, ?_, ?_, ?_⟩
  · intro h
    subst h
    rfl
  · intro h
    subst h
    simp [setup_device, List.isEmpty_iff, List.range_eq_nil]
  · intro h0 ht hmax
    simp [setup_device, List.isEmpty_iff, List.range_eq_nil, h0, ht,
      range_foldl_max, hmax]
  · intro h0 ht hmax hlen
    simp [setup_device, List.isEmpty_iff, List.range_eq_nil, h0, ht,
      range_foldl_max, Nat.not_lt.2 hmax, hlen]
  · intro h0 ht hmax hlen
    simp [setup_device, List.isEmpty_iff, List.range_eq_nil, h0, ht,
      range_foldl_max, Nat.not_lt.2 hmax, hlen]

/-- Witness for C6 at `device_count = 2`: CPU fallback, out-of-range error,
data-parallel wrap, and single-device placement, each at a concrete input. -/
theorem setup_device_correct_witness :
    setup_device 0 ⟨[]⟩ [0] = .ok (.onDevice ⟨[]⟩ .cpu, .cpu) ∧
    setup_device 2 ⟨[]⟩ [] = .ok (.onDevice ⟨[]⟩ .cpu, .cpu) ∧
    setup_device 2 ⟨[]⟩ [3] = .error "Configuration requests an unavailable GPU" ∧
    setup_device 2 ⟨[]⟩ [0, 1] = .ok (.dataParallel ⟨[]⟩ [0, 1], .cuda 0) ∧
    setup_device 2 ⟨[]⟩ [1] = .ok (.onDevice ⟨[]⟩ (.cuda 1), .cuda 1) := by
  refine ⟨(setup_device_correct 0 ⟨[]⟩ [0]).1 rfl,
    (setup_device_correct 2 ⟨[]⟩ []).2.1 rfl,
    (setup_device_correct 2 ⟨[]⟩ [3]).2.2.1 (by decide) (by decide) (by decide),
    (setup_device_correct 2 ⟨[]⟩ [0, 1]).2.2.2.1 (by decide) (by decide)
      (by decide) (by decide),
    (setup_device_correct 2 ⟨[]⟩ [1]).2.2.2.2 (by decide) (by decide)
      (by decide) (by decide)⟩

/-! ### Inference manager: score check (runner.py 237-263, 292-305) -/

/-- `checkpoint["monitor_best"]`: either a raw scalar or a scalar tensor
(unwrapped by `.item()` in `extract_score`). -/
inductive BestScore where
  | raw (q : ℚ)
  | tensor (q : ℚ)
deriving DecidableEq

/-- A checkpoint as consumed by the inference manager, abstracted to the
field the score check reads. -/
structure InfCheckpoint where
  monitor_best : BestScore
deriving DecidableEq

/-- Embedding of `InferenceManager.extract_score` (runner.py 301-305). -/
def extract_score (checkpoint : InfCheckpoint) : ℚ :=
  match checkpoint.monitor_best with
  | .raw q => q
  | .tensor q => q

/-- Embedding of `InferenceManager.check_score` (runner.py 292-299): raise
when the best score is strictly below the threshold, else return it. -/
def check_score (score_threshold : ℚ) (checkpoint : InfCheckpoint) :
    Except String ℚ :=
  let best_score := extract_score checkpoint
  if best_score < score_threshold then .error "Skipping low scoring model"
  else .ok best_score

/-- The observable steps of `InferenceManager.run`, in source order. -/
inductive InfEvent where
  | setupDevice
  | loadCheckpoint
  | checkScore
  | buildModel
  | loadStateDict
  | buildTTAModel
  | buildWriter
  | inference
deriving DecidableEq

/-- Embedding of the control flow of `InferenceManager.run` (runner.py
237-263) as an event trace plus outcome: `check_score` runs right after the
checkpoint is loaded, and the model is constructed (`get_instance`,
`buildModel`) only afterwards; an exception aborts the remaining steps. -/
def inference_run (score_threshold : ℚ) (checkpoint : InfCheckpoint) :
    List InfEvent × Except String ℚ :=
  match check_score score_threshold checkpoint with
  | .error e => ([.setupDevice, .loadCheckpoint, .checkScore], .error e)
  | .ok best_score =>
      ([.setupDevice, .loadCheckpoint, .checkScore, .buildModel, .loadStateDict,
        .buildTTAModel, .buildWriter, .inference], .ok best_score)

/-- C4: a checkpoint whose (unwrapped) `monitor_best` is strictly below the
threshold makes `InferenceManager.run` raise with no model-construction step
in its trace; at or above the threshold, `check_score` passes and returns
the score. -/
theorem inference_score_gate (score_threshold : ℚ)
    (checkpoint : InfCheckpoint) :
    (extract_score checkpoint < score_threshold →
      (inference_run score_threshold checkpoint).2
          = .error "Skipping low scoring model" ∧
      InfEvent.buildModel ∉ (inference_run score_threshold checkpoint).1) ∧
    (score_threshold ≤ extract_score checkpoint →
      check_score score_threshold checkpoint
          = .ok (extract_score checkpoint) ∧
      (inference_run score_threshold checkpoint).2
          = .ok (extract_score checkpoint)) := by
  constructor
  · intro hlt
    have hcs : check_score score_threshold checkpoint
        = .error "Skipping low scoring model" := by
      simp [check_score, hlt]
    constructor
    · simp [inference_run, hcs]
    · simp [inference_run, hcs]
  · intro hge
    have hcs : check_score score_threshold checkpoint
        = .ok (extract_score checkpoint) := by
      simp [check_score, not_lt.2 hge]
    exact ⟨hcs, by simp [inference_run, hcs]⟩

/-- Witness for C4: a tensor-wrapped score 1/4 below threshold 1/2 is
rejected before model construction; a raw score 3/4 passes. -/
theorem inference_score_gate_witness :
    ((inference_run (1 / 2) ⟨.tensor (1 / 4)⟩).2
        = .error "Skipping low scoring model" ∧
      InfEvent.buildModel ∉ (inference_run (1 / 2) ⟨.tensor (1 / 4)⟩).1) ∧
    check_score (1 / 2) ⟨.raw (3 / 4)⟩ = .ok (3 / 4) := by
  refine ⟨(inference_score_gate (1 / 2) ⟨.tensor (1 / 4)⟩).1 (by norm_num
    [extract_score]), ?_⟩
  have h := ((inference_score_gate (1 / 2) ⟨.raw (3 / 4)⟩).2
    (by norm_num [extract_score])).1
  simpa [extract_score] using h

/-! ### Training manager: checkpoint resume (runner.py 208-229) -/

/-- A training checkpoint: saved weights, saved optimizer state, the epoch
it was written at, and the optimizer type recorded in its saved config. -/
structure TrainCheckpoint where
  state_dict : List ℚ
  optimizer : List ℚ
  epoch : ℕ
  optimizer_type : String
deriving DecidableEq

/-- The slice of the training config that `resume_checkpoint` reads:
`config["optimizer"]["type"]`. -/
structure TrainConfig where
  optimizer_type : String
deriving DecidableEq

/-- Result of `resume_checkpoint`, with `warned` recording whether the
optimizer-mismatch warning was logged. -/
structure ResumeResult where
  model : Model
  optimizer : Optim
  start_epoch : ℕ
  warned : Bool
deriving DecidableEq

/-- Embedding of `TrainingManager.resume_checkpoint` (runner.py 208-229):
no path returns everything unchanged with epoch 0; otherwise the weights are
loaded unconditionally, the optimizer state only when the recorded optimizer
type matches the configured one (else warn), and the checkpoint epoch is
returned.  `torch.load` is embedded by passing the checkpoint value for the
path. -/
def resume_checkpoint (resume : Option TrainCheckpoint) (model : Model)
    (optimizer : Optim) (config : TrainConfig) : ResumeResult :=
  match resume with
  | none => ⟨model, optimizer, 0, false⟩
  | some checkpoint =>
      let model := { model with weights := checkpoint.state_dict }
      if checkpoint.optimizer_type ≠ config.optimizer_type then
        ⟨model, optimizer, checkpoint.epoch, true⟩
      else
        ⟨model, { optimizer with state := checkpoint.optimizer },
          checkpoint.epoch, false⟩

/-- C5: `resume_checkpoint` with no checkpoint returns model and optimizer
unchanged with epoch 0; with a checkpoint it loads the weights
unconditionally, loads the optimizer state iff the recorded optimizer type
equals the configured one (warning otherwise and keeping the fresh state),
and returns the checkpoint epoch. -/
theorem resume_checkpoint_correct (model : Model) (optimizer : Optim)
    (config : TrainConfig) :
    (resume_checkpoint none model optimizer config
        = ⟨model, optimizer, 0, false⟩) ∧
    (∀ checkpoint : TrainCheckpoint,
      (resume_checkpoint (some checkpoint) model optimizer config).model.weights
          = checkpoint.state_dict ∧
      (resume_checkpoint (some checkpoint) model optimizer config).start_epoch
          = checkpoint.epoch ∧
      (checkpoint.optimizer_type = config.optimizer_type →
        (resume_checkpoint (some checkpoint) model optimizer config).optimizer
            = ⟨optimizer.otype, checkpoint.optimizer⟩ ∧
        (resume_checkpoint (some checkpoint) model optimizer config).warned
            = false) ∧
      (checkpoint.optimizer_type ≠ config.optimizer_type →
        (resume_checkpoint (some checkpoint) model optimizer config).optimizer
            = optimizer ∧
        (resume_checkpoint (some checkpoint) model optimizer config).warned
            = true)) := by
  refine ⟨rfl, fun checkpoint => ?_⟩
  by_cases h : checkpoint.optimizer_type = config.optimizer_type
  · refine ⟨?_, ?_, fun _ => ⟨?_, ?_⟩, fun hne => absurd h hne⟩ <;>
      simp [resume_checkpoint, h]
  · refine ⟨?_, ?_, fun heq => absurd heq h, fun _ => ⟨?_, ?_⟩⟩ <;>
      simp [resume_checkpoint, h]

/-- Witness for C5: resuming a checkpoint with a mismatched optimizer type
keeps the fresh optimizer state but loads the weights; a matching type loads
the optimizer state from the checkpoint. -/
theorem resume_checkpoint_correct_witness :
    resume_checkpoint none ⟨[1]⟩ ⟨"Adam", [5]⟩ ⟨"Adam"⟩
        = ⟨⟨[1]⟩, ⟨"Adam", [5]⟩, 0, false⟩ ∧
    (resume_checkpoint (some ⟨[2, 3], [7], 4, "SGD"⟩) ⟨[1]⟩ ⟨"Adam", [5]⟩
        ⟨"Adam"⟩).model.weights = [2, 3] ∧
    (resume_checkpoint (some ⟨[2, 3], [7], 4, "SGD"⟩) ⟨[1]⟩ ⟨"Adam", [5]⟩
        ⟨"Adam"⟩).optimizer = ⟨"Adam", [5]⟩ ∧
    (resume_checkpoint (some ⟨[2, 3], [7], 4, "SGD"⟩) ⟨[1]⟩ ⟨"Adam", [5]⟩
        ⟨"Adam"⟩).warned = true ∧
    (resume_checkpoint (some ⟨[2, 3], [7], 4, "Adam"⟩) ⟨[1]⟩ ⟨"Adam", [5]⟩
        ⟨"Adam"⟩).optimizer = ⟨"Adam", [7]⟩ ∧
    (resume_checkpoint (some ⟨[2, 3], [7], 4, "Adam"⟩) ⟨[1]⟩ ⟨"Adam", [5]⟩
        ⟨"Adam"⟩).start_epoch = 4 := by
  have h1 := (resume_checkpoint_correct ⟨[1]⟩ ⟨"Adam", [5]⟩ ⟨"Adam"⟩).1
  have h2 := (resume_checkpoint_correct ⟨[1]⟩ ⟨"Adam", [5]⟩ ⟨"Adam"⟩).2
    ⟨[2, 3], [7], 4, "SGD"⟩
  have h3 := (resume_checkpoint_correct ⟨[1]⟩ ⟨"Adam", [5]⟩ ⟨"Adam"⟩).2
    ⟨[2, 3], [7], 4, "Adam"⟩
  obtain ⟨hw2, he2, -, hmis⟩ := h2
  obtain ⟨hw3, he3, hmat, -⟩ := h3
  obtain ⟨ho2, hwarn2⟩ := hmis (by decide)
  obtain ⟨ho3, hwarn3⟩ := hmat rfl
  exact ⟨h1, hw2, ho2, hwarn2, ho3, he3⟩

/-! ### Inference manager: TTA wrapper (runner.py 267-274) -/

/-- A string-keyed configuration dictionary (a Python `dict`). -/
abbrev ConfigDict := List (String × String)

/-- The test-time-augmentation wrapper as constructed by
`build_tta_model`: the wrapper class looked up in the `ttach` module by
name, the composed transforms, the merge mode, and the wrapped model. -/
structure TTAWrapper where
  wrapper_type : String
  transforms : List String
  merge_mode : String
  model : Model
  device : Device
deriving DecidableEq

/-- Embedding of `InferenceManager.build_tta_model` (runner.py 267-274):
the wrapper class name is `config["tta"]` (KeyError, i.e. `none`, when the
key is absent), the transforms are the composition of a horizontal and a
vertical flip, and the merge mode is passed as the literal string "mean". -/
def build_tta_model (model : Model) (config : ConfigDict) (device : Device) :
    Option TTAWrapper := do
  let name ← config.lookup "tta"
  pure ⟨name, ["HorizontalFlip", "VerticalFlip"], "mean", model, device⟩

/-- Counterexample for C7: with a configuration that sets a merge mode of
"max", the wrapper built by `build_tta_model` still merges with "mean" —
the merge mode is not taken from the configuration. -/
theorem build_tta_model_merge_mode_not_configurable :
    (build_tta_model ⟨[]⟩ [("tta", "SegmentationTTAWrapper"),
        ("merge_mode", "max")] .cpu).map TTAWrapper.merge_mode
      = some "mean" ∧ ("mean" : String) ≠ "max" := by
  exact ⟨rfl, by decide⟩

/-- C7 (amended): `build_tta_model` uses the TTA strategy named by the
configuration under the `tta` key, composes horizontal and vertical flips,
and always passes the hardcoded merge mode "mean" (averaging), whatever the
configuration contains. -/
theorem build_tta_model_correct (model : Model) (config : ConfigDict)
    (device : Device) (name : String)
    (h : config.lookup "tta" = some name) :
    build_tta_model model config device
      = some ⟨name, ["HorizontalFlip", "VerticalFlip"], "mean", model,
          device⟩ := by
  simp [build_tta_model, h]

/-- Witness for the amended C7 at a concrete configuration. -/
theorem build_tta_model_correct_witness :
    build_tta_model ⟨[3]⟩ [("tta", "SegmentationTTAWrapper")] .cpu
      = some ⟨"SegmentationTTAWrapper", ["HorizontalFlip", "VerticalFlip"],
          "mean", ⟨[3]⟩, .cpu⟩ :=
  build_tta_model_correct ⟨[3]⟩ [("tta", "SegmentationTTAWrapper")] .cpu
    "SegmentationTTAWrapper" rfl

/-! ### Training manager: the shallow-copied config (runner.py 102-122)

`TrainingManager.run` starts with `cfg = self.cfg.copy()`.  Python
`dict.copy` is shallow: the new top-level dict holds the same references to
nested dicts, so `cfg["augmentation"]` is the very dict object
`self.cfg["augmentation"]`.  The embedding makes the nested-object heap
explicit: nested augmentation dicts live at addresses, and both the copy and
the original hold an address. -/

/-- The heap of nested augmentation dicts: address to augmentation type
string (the only entry the fallback path touches). -/
def AugHeap := ℕ → String

/-- The top-level configuration dict, abstracted to the reference it holds
to the nested augmentation dict. -/
structure TopConfig where
  augmentation : ℕ
deriving DecidableEq

/-- `self.cfg.copy()`: a new top-level dict containing the same reference to
the nested augmentation dict. -/
def dict_copy (c : TopConfig) : TopConfig := ⟨c.augmentation⟩

/-- Read `cfg["augmentation"]["type"]` through the heap. -/
def readAugType (heap : AugHeap) (c : TopConfig) : String :=
  heap c.augmentation

/-- `cfg["augmentation"]["type"] = v`: mutate the nested dict in place. -/
def writeAugType (heap : AugHeap) (c : TopConfig) (v : String) : AugHeap :=
  fun a => if a = c.augmentation then v else heap a

/-- Embedding of the augmentation step of `TrainingManager.run` (runner.py
lines 103 and 118-122): work on `cfg = self.cfg.copy()`; try to construct
the configured augmentation type; on any failure overwrite
`cfg["augmentation"]["type"]` with "LightTransforms" and retry.
`constructible` says which type names `get_instance` can construct.
Returns the heap after the step and the type name finally constructed. -/
def run_augmentation_step (constructible : String → Bool) (heap : AugHeap)
    (self_cfg : TopConfig) : AugHeap × String :=
  let cfg := dict_copy self_cfg
  if constructible (readAugType heap cfg) then
    (heap, readAugType heap cfg)
  else
    let heap := writeAugType heap cfg "LightTransforms"
    (heap, readAugType heap cfg)

/-- C8 is violated: at the failing input where the configured augmentation
type "HeavyTransforms" is not constructible, the fallback path of
`TrainingManager.run` mutates the nested augmentation dict shared (via the
shallow `dict.copy`) with the manager's own `self.cfg`, whose
`augmentation.type` entry reads "LightTransforms" afterwards instead of the
"HeavyTransforms" it held before the run step. -/
theorem run_augmentation_step_mutates_manager_config :
    readAugType (fun _ => "HeavyTransforms") ⟨0⟩ = "HeavyTransforms" ∧
    readAugType
        (run_augmentation_step (fun t => t == "LightTransforms")
          (fun _ => "HeavyTransforms") ⟨0⟩).1 ⟨0⟩
      = "LightTransforms" ∧
    ("LightTransforms" : String) ≠ "HeavyTransforms" := by
  refine ⟨rfl, rfl, by decide⟩

end UCO
